import Mathlib

/-!
Shallow embedding of the togl 2D physics engine (src/physics.ts) and
verification of its specification claims.

Numbers are modelled as real numbers; JavaScript `Math.sqrt` / `Math.cos` /
`Math.sin` become `Real.sqrt` / `Real.cos` / `Real.sin`, and `x ** .5` on a
nonnegative argument is `Real.sqrt`.  In-place mutation becomes explicit
state passing.  The body store is addressed positionally (the dynamic list
followed by the static list), which reproduces the reference aliasing of the
source: during `worldStep` no body is ever added to or removed from a
collection, so the snapshot array `all` of the source always holds exactly
the bodies `dynamicBodies ++ staticBodies` in that order.
-/

noncomputable section

open scoped Classical

namespace physics

/-- The shape of a body (`ShapeType` in the source). -/
inductive ShapeType where
  | CIRCLE : ShapeType
  | RECTANGLE : ShapeType
deriving DecidableEq

/-- Two dimensional vector. -/
@[ext] structure Vector2 where
  x : ℝ
  y : ℝ

/-- A joint between two bodies that should be enforced. -/
@[ext] structure Joint where
  bodyA : Nat
  bodyB : Nat
  distance : ℝ
  rigidity : ℝ
  elasticity : ℝ

/-- A collision that has occurred in the world (`CollisionDetails`).
The source field `end` is called `endPoint` here because `end` is a Lean
keyword. -/
@[ext] structure CollisionDetails where
  depth : ℝ
  normal : Vector2
  start : Vector2
  endPoint : Vector2

/-- Description of a collision that occurred, for the client app. -/
@[ext] structure Collision where
  bodyAId : Nat
  bodyBId : Nat
  depth : ℝ

/-- A rigid body in the physical world.  As in the source, the field `mass`
stores the INVERSE mass (0 for immobile bodies).  The opaque user `data`
field is omitted: the engine never reads it. -/
@[ext] structure Body where
  id : Nat
  type : ShapeType
  center : Vector2
  averageCenter : Vector2
  friction : ℝ
  restitution : ℝ
  mass : ℝ
  velocity : Vector2
  acceleration : Vector2
  angle : ℝ
  averageAngle : ℝ
  angularVelocity : ℝ
  angularAcceleration : ℝ
  bounds : ℝ
  boundingBox : Vector2
  width : ℝ
  height : ℝ
  inertia : ℝ
  faceNormals : List Vector2
  vertices : List Vector2
  pinned : Bool
  restingTime : ℝ
  static : Bool
  permeability : ℝ

/-- The world in which the physics engine runs. -/
@[ext] structure World where
  dynamicBodies : List Body
  staticBodies : List Body
  disabledBodies : List Body
  gravity : Vector2
  angularDamp : ℝ
  damp : ℝ
  nextId : Nat
  joints : List Joint

/-- Create a new vector (`newVec2`). -/
def newVec2 (x y : ℝ) : Vector2 := { x := x, y := y }

/-- Dot product of two vectors (`dotProduct`). -/
def dotProduct (v w : Vector2) : ℝ := v.x * w.x + v.y * w.y

/-- Length of a vector (`lengthVec2`, `dotProduct(v, v) ** .5`). -/
def lengthVec2 (v : Vector2) : ℝ := Real.sqrt (dotProduct v v)

/-- Vector addition (`addVec2`). -/
def addVec2 (v w : Vector2) : Vector2 := newVec2 (v.x + w.x) (v.y + w.y)

/-- Vector scaling (`scaleVec2`). -/
def scaleVec2 (v : Vector2) (n : ℝ) : Vector2 := newVec2 (v.x * n) (v.y * n)

/-- Vector subtraction (`subtractVec2 = addVec2(v, scaleVec2(w, -1))`). -/
def subtractVec2 (v w : Vector2) : Vector2 := addVec2 v (scaleVec2 w (-1))

/-- Cross product of two vectors (`crossProduct`). -/
def crossProduct (v w : Vector2) : ℝ := v.x * w.y - v.y * w.x

/-- Rotate a vector around a specific point (`rotateVec2`). -/
def rotateVec2 (v center : Vector2) (angle : ℝ) : Vector2 :=
  let x := v.x - center.x
  let y := v.y - center.y
  newVec2 (x * Real.cos angle - y * Real.sin angle + center.x)
          (x * Real.sin angle + y * Real.cos angle + center.y)

/-- Normalize a vector (`normalize`): `scaleVec2(v, 1 / (lengthVec2(v) || 1))`.
The JavaScript `|| 1` turns a zero length into a divisor of 1. -/
def normalize (v : Vector2) : Vector2 :=
  scaleVec2 v (1 / (if lengthVec2 v = 0 then 1 else lengthVec2 v))

/-- Vertex access: the source indexes `body.vertices[i]` for `i < 4`. -/
def vertexAt (b : Body) (i : Nat) : Vector2 := b.vertices.getD i (newVec2 0 0)

/-- Face normal access: the source indexes `body.faceNormals[i]` for `i < 4`. -/
def faceNormalAt (b : Body) (i : Nat) : Vector2 := b.faceNormals.getD i (newVec2 0 0)

/-- Recompute the bounding box of a body (`calcBoundingBox`). -/
def calcBoundingBox (body : Body) : Body :=
  match body.type with
  | ShapeType.CIRCLE => { body with boundingBox := newVec2 body.bounds body.bounds }
  | ShapeType.RECTANGLE =>
      let bb := body.vertices.foldl
        (fun acc v => newVec2 (max acc.x (abs (body.center.x - v.x))) (max acc.y (abs (body.center.y - v.y))))
        (newVec2 0 0)
      { body with boundingBox := bb }

/-- Compute face normals for rectangles (`computeRectNormals`): normal `i` is
the normalized vector from vertex `(i+2)%4` to vertex `(i+1)%4`. -/
def computeRectNormals (shape : Body) : Body :=
  { shape with faceNormals :=
      (List.range 4).map fun i =>
        normalize (subtractVec2 (vertexAt shape ((i + 1) % 4)) (vertexAt shape ((i + 2) % 4))) }

/-- The internal `_moveBody(body, v, force)`.  When `force` is false the move
is a no-op for pinned bodies and for bodies with zero inverse mass. -/
def moveBodyInternal (body : Body) (v : Vector2) (force : Bool) : Body :=
  if force = false ∧ (body.pinned = true ∨ body.mass = 0) then body
  else
    let body := { body with center := addVec2 body.center v }
    match body.type with
    | ShapeType.CIRCLE => body
    | ShapeType.RECTANGLE =>
        calcBoundingBox { body with vertices := body.vertices.map fun w => addVec2 w v }

/-- The public `moveBody`: a forced move. -/
def moveBody (body : Body) (v : Vector2) : Body := moveBodyInternal body v true

/-- Rotate a body around its center (`rotateBody`). -/
def rotateBody (body : Body) (angle : ℝ) : Body :=
  let body := { body with angle := body.angle + angle }
  match body.type with
  | ShapeType.CIRCLE => body
  | ShapeType.RECTANGLE =>
      calcBoundingBox (computeRectNormals
        { body with vertices := body.vertices.map fun v => rotateVec2 v body.center angle })

/-- Get the list of all bodies in the system (`allBodies`). -/
def allBodies (world : World) : List Body :=
  world.dynamicBodies ++ world.staticBodies ++ world.disabledBodies

/-- Get the list of all enabled bodies (`enabledBodies`). -/
def enabledBodies (world : World) : List Body :=
  world.dynamicBodies ++ world.staticBodies

/-- Create a joint between two bodies (`createJoint`).  The target distance is
the distance between the two centers at creation time plus `0.5`; the caller
supplies only `rigidity` and `elasticity`. -/
def createJoint (world : World) (bodyA bodyB : Body) (rigidity elasticity : ℝ) : World :=
  { world with joints := world.joints ++
      [{ bodyA := bodyA.id, bodyB := bodyB.id,
         distance := lengthVec2 (subtractVec2 bodyA.center bodyB.center) + 0.5,
         rigidity := rigidity, elasticity := elasticity }] }

/-- Remove a body from the world (`removeBody`): only the collection selected
by the body's `static` flag is searched, by id. -/
def removeBody (world : World) (body : Body) : World :=
  if body.static = true then
    match world.staticBodies.findIdx? (fun b => b.id == body.id) with
    | some index => { world with staticBodies := world.staticBodies.eraseIdx index }
    | none => world
  else
    match world.dynamicBodies.findIdx? (fun b => b.id == body.id) with
    | some index => { world with dynamicBodies := world.dynamicBodies.eraseIdx index }
    | none => world

/-- Broad-phase test (`boundTest`): axis-aligned bounding-box overlap using
half extents. -/
def boundTest (s1 s2 : Body) : Prop :=
  |s1.center.x - s2.center.x| < s1.boundingBox.x + s2.boundingBox.x ∧
  |s1.center.y - s2.center.y| < s1.boundingBox.y + s2.boundingBox.y

/-- Collision info construction (`setCollisionInfo`): the end point is
`start + normal * depth`. -/
def setCollisionInfo (D : ℝ) (N S : Vector2) : CollisionDetails :=
  { depth := D, normal := N, start := S, endPoint := addVec2 S (scaleVec2 N D) }

/-- Support-point search inside `findAxisLeastPenetration`: for direction
`dir` and the point `ptOnEdge` on the current edge, scan the other
rectangle's vertices `j = 3, 2, 1, 0` keeping the largest positive
projection; starts from the sentinel distance `-1e9` with no point. -/
def findSupportPoint (otherRect : Body) (dir ptOnEdge : Vector2) : Option Vector2 × ℝ :=
  ([3, 2, 1, 0] : List Nat).foldl
    (fun acc j =>
      let vToEdge := subtractVec2 (vertexAt otherRect j) ptOnEdge
      let projection := dotProduct vToEdge dir
      if 0 < projection ∧ acc.2 < projection then (some (vertexAt otherRect j), projection)
      else acc)
    (none, -(1e9))

/-- The loop of `findAxisLeastPenetration` over face indices `3, 2, 1, 0`:
stops with no result as soon as a face has no support point; otherwise keeps
the face of smallest support distance.  `supportPoint = none` encodes the
source's `-1` sentinel (never replaced in any run whose coordinates stay
below the `1e9` sentinel distance). -/
def falpGo (rect otherRect : Body) :
    List Nat → ℝ → Nat → Option Vector2 → Option CollisionDetails
  | [], bestDistance, bestIndex, supportPoint =>
      match supportPoint with
      | some sp =>
          some (setCollisionInfo bestDistance (faceNormalAt rect bestIndex)
            (addVec2 sp (scaleVec2 (faceNormalAt rect bestIndex) bestDistance)))
      | none => none
  | i :: rest, bestDistance, bestIndex, supportPoint =>
      let n := faceNormalAt rect i
      let dir := scaleVec2 n (-1)
      let ptOnEdge := vertexAt rect i
      let found := findSupportPoint otherRect dir ptOnEdge
      match found.1 with
      | none => none
      | some sp =>
          if found.2 < bestDistance then falpGo rect otherRect rest found.2 i (some sp)
          else falpGo rect otherRect rest bestDistance bestIndex supportPoint

/-- Find the axis of least penetration between two rectangles
(`findAxisLeastPenetration`). -/
def findAxisLeastPenetration (rect otherRect : Body) : Option CollisionDetails :=
  falpGo rect otherRect [3, 2, 1, 0] 1e9 0 none

/-- The scan of the rectangle–circle test over face indices `3, 2, 1, 0`:
returns `(inside, bestDistance, nearestEdge)`; breaks out with `inside =
false` at the first face with positive projection of the circle center. -/
def rectCircleScan (c1 c2 : Body) : List Nat → ℝ → Nat → Bool × ℝ × Nat
  | [], best, edge => (true, best, edge)
  | i :: rest, best, edge =>
      let v := subtractVec2 c2.center (vertexAt c1 i)
      let projection := dotProduct v (faceNormalAt c1 i)
      if 0 < projection then (false, projection, i)
      else if best < projection then rectCircleScan c1 c2 rest projection i
      else rectCircleScan c1 c2 rest best edge

/-- Rectangle–circle narrow phase (the rectangle is `c1`, the circle `c2`). -/
def rectCircleTest (c1 c2 : Body) : Option CollisionDetails :=
  let scan := rectCircleScan c1 c2 [3, 2, 1, 0] (-(1e9)) 0
  let inside := scan.1
  let bestDistance := scan.2.1
  let nearestEdge := scan.2.2
  if inside = true then
    some (setCollisionInfo (c2.bounds - bestDistance) (faceNormalAt c1 nearestEdge)
      (subtractVec2 c2.center (scaleVec2 (faceNormalAt c1 nearestEdge) c2.bounds)))
  else
    let v1 := subtractVec2 c2.center (vertexAt c1 nearestEdge)
    let v2 := subtractVec2 (vertexAt c1 ((nearestEdge + 1) % 4)) (vertexAt c1 nearestEdge)
    let dotp := dotProduct v1 v2
    if dotp < 0 then
      let dis := lengthVec2 v1
      if c2.bounds < dis then none
      else
        some (setCollisionInfo (c2.bounds - dis) (normalize v1)
          (addVec2 c2.center (scaleVec2 (normalize v1) (-c2.bounds))))
    else
      let w1 := subtractVec2 c2.center (vertexAt c1 ((nearestEdge + 1) % 4))
      let w2 := scaleVec2 v2 (-1)
      let dotw := dotProduct w1 w2
      if dotw < 0 then
        let dis := lengthVec2 w1
        if c2.bounds < dis then none
        else
          some (setCollisionInfo (c2.bounds - dis) (normalize w1)
            (addVec2 c2.center (scaleVec2 (normalize w1) (-c2.bounds))))
      else
        if bestDistance < c2.bounds then
          some (setCollisionInfo (c2.bounds - bestDistance) (faceNormalAt c1 nearestEdge)
            (subtractVec2 c2.center (scaleVec2 (faceNormalAt c1 nearestEdge) c2.bounds)))
        else none

/-- Narrow-phase collision test (`testCollision`).  Returns the populated
collision details instead of mutating an out parameter.  Static–static pairs
(both inverse masses zero) are rejected first, exactly as in the source.
The `world` parameter is kept for signature fidelity; the source never reads
it inside this function. -/
def testCollision (_world : World) (c1 c2 : Body) : Option CollisionDetails :=
  if c1.mass = 0 ∧ c2.mass = 0 then none
  else if c1.type = ShapeType.CIRCLE ∧ c2.type = ShapeType.CIRCLE then
    let vFrom1to2 := subtractVec2 c2.center c1.center
    let rSum := c1.bounds + c2.bounds
    let dist := lengthVec2 vFrom1to2
    if dist ≤ Real.sqrt (rSum * rSum) then
      some (setCollisionInfo (rSum - dist) (normalize vFrom1to2)
        (addVec2 c2.center (scaleVec2 (normalize (scaleVec2 vFrom1to2 (-1))) c2.bounds)))
    else none
  else if c1.type = ShapeType.RECTANGLE ∧ c2.type = ShapeType.RECTANGLE then
    match findAxisLeastPenetration c1 c2 with
    | none => none
    | some infoR1 =>
        match findAxisLeastPenetration c2 c1 with
        | none => none
        | some infoR2 =>
            if infoR1.depth < infoR2.depth then
              some (setCollisionInfo infoR1.depth infoR1.normal
                (subtractVec2 infoR1.start (scaleVec2 infoR1.normal infoR1.depth)))
            else
              some (setCollisionInfo infoR2.depth (scaleVec2 infoR2.normal (-1)) infoR2.start)
  else
    let a := if c1.type = ShapeType.CIRCLE ∧ c2.type = ShapeType.RECTANGLE then c2 else c1
    let b := if c1.type = ShapeType.CIRCLE ∧ c2.type = ShapeType.RECTANGLE then c1 else c2
    if a.type = ShapeType.RECTANGLE ∧ b.type = ShapeType.CIRCLE then rectCircleTest a b
    else none

/-- Position-correction vector of the resolver:
`normal * (depth / (invMassA + invMassB) * 0.8)`. -/
def correctionVec (s1 s2 : Body) (ci : CollisionDetails) : Vector2 :=
  scaleVec2 ci.normal (ci.depth / (s1.mass + s2.mass) * 0.8)

/-- Body `s1` after the resolver's position correction: moved by
`-correction * invMassA` through the NON-forced `_moveBody`. -/
def movedA (s1 s2 : Body) (ci : CollisionDetails) : Body :=
  moveBodyInternal s1 (scaleVec2 (correctionVec s1 s2 ci) (-s1.mass)) false

/-- Body `s2` after the resolver's position correction: moved by
`correction * invMassB` through the NON-forced `_moveBody`. -/
def movedB (s1 s2 : Body) (ci : CollisionDetails) : Body :=
  moveBodyInternal s2 (scaleVec2 (correctionVec s1 s2 ci) s2.mass) false

/-- The blended contact point `p` of the resolver (start and end scaled by the
opposite body's inverse-mass share). -/
def contactP (s1 s2 : Body) (ci : CollisionDetails) : Vector2 :=
  addVec2 (scaleVec2 ci.start (s2.mass / (s1.mass + s2.mass)))
          (scaleVec2 ci.endPoint (s1.mass / (s1.mass + s2.mass)))

/-- `r1`: vector from the (corrected) center of `s1` to the contact point. -/
def r1Of (s1 s2 : Body) (ci : CollisionDetails) : Vector2 :=
  subtractVec2 (contactP s1 s2 ci) (movedA s1 s2 ci).center

/-- `r2`: vector from the (corrected) center of `s2` to the contact point. -/
def r2Of (s1 s2 : Body) (ci : CollisionDetails) : Vector2 :=
  subtractVec2 (contactP s1 s2 ci) (movedB s1 s2 ci).center

/-- Relative velocity at the contact point including the angular term
(`v + omega cross r` in two dimensions). -/
def relVelOf (s1 s2 : Body) (ci : CollisionDetails) : Vector2 :=
  subtractVec2
    (addVec2 s2.velocity
      (newVec2 (-1 * s2.angularVelocity * (r2Of s1 s2 ci).y) (s2.angularVelocity * (r2Of s1 s2 ci).x)))
    (addVec2 s1.velocity
      (newVec2 (-1 * s1.angularVelocity * (r1Of s1 s2 ci).y) (s1.angularVelocity * (r1Of s1 s2 ci).x)))

/-- Relative velocity in the normal direction (`rVelocityInNormal`). -/
def rVnOf (s1 s2 : Body) (ci : CollisionDetails) : ℝ :=
  dotProduct (relVelOf s1 s2 ci) ci.normal

/-- Normal impulse scalar `jN` of the resolver. -/
def jNOf (s1 s2 : Body) (ci : CollisionDetails) : ℝ :=
  (-(1 + min s1.restitution s2.restitution) * rVnOf s1 s2 ci) /
    (s1.mass + s2.mass +
      crossProduct (r1Of s1 s2 ci) ci.normal * crossProduct (r1Of s1 s2 ci) ci.normal * s1.inertia +
      crossProduct (r2Of s1 s2 ci) ci.normal * crossProduct (r2Of s1 s2 ci) ci.normal * s2.inertia)

/-- Friction tangent: unit vector opposite the tangential relative velocity. -/
def tangentOf (s1 s2 : Body) (ci : CollisionDetails) : Vector2 :=
  scaleVec2
    (normalize (subtractVec2 (relVelOf s1 s2 ci)
      (scaleVec2 ci.normal (dotProduct (relVelOf s1 s2 ci) ci.normal))))
    (-1)

/-- Unclamped friction impulse scalar `jT` of the resolver. -/
def jTrawOf (s1 s2 : Body) (ci : CollisionDetails) : ℝ :=
  (-(1 + min s1.restitution s2.restitution) *
      dotProduct (relVelOf s1 s2 ci) (tangentOf s1 s2 ci) * min s1.friction s2.friction) /
    (s1.mass + s2.mass +
      crossProduct (r1Of s1 s2 ci) (tangentOf s1 s2 ci) *
        crossProduct (r1Of s1 s2 ci) (tangentOf s1 s2 ci) * s1.inertia +
      crossProduct (r2Of s1 s2 ci) (tangentOf s1 s2 ci) *
        crossProduct (r2Of s1 s2 ci) (tangentOf s1 s2 ci) * s2.inertia)

/-- The friction impulse scalar actually applied: the source clamps only from
above (`if (jT > jN) jT = jN`). -/
def jTOf (s1 s2 : Body) (ci : CollisionDetails) : ℝ :=
  if jNOf s1 s2 ci < jTrawOf s1 s2 ci then jNOf s1 s2 ci else jTrawOf s1 s2 ci

/-- Collision resolution (`resolveCollision`).  Returns the updated pair of
bodies together with the boolean result of the source function.  Note that
the two early returns after the position correction still keep the already
performed moves, exactly as the source mutation does. -/
def resolveCollision (world : World) (s1 s2 : Body) (ci : CollisionDetails) :
    Body × Body × Bool :=
  if s1.mass = 0 ∧ s2.mass = 0 then (s1, s2, false)
  else if (correctionVec s1 s2 ci).x = 0 ∧ (correctionVec s1 s2 ci).y = 0 then (s1, s2, false)
  else
    let a0 := movedA s1 s2 ci
    let b0 := movedB s1 s2 ci
    if 0 < rVnOf s1 s2 ci then (a0, b0, false)
    else
      let n := ci.normal
      let jN := jNOf s1 s2 ci
      let a1 := if a0.static = true then a0 else
        { a0 with
          velocity := subtractVec2 a0.velocity (scaleVec2 (scaleVec2 n jN) a0.mass),
          angularVelocity := a0.angularVelocity - crossProduct (r1Of s1 s2 ci) n * jN * a0.inertia }
      let b1 := if b0.static = true then b0 else
        { b0 with
          velocity := addVec2 b0.velocity (scaleVec2 (scaleVec2 n jN) b0.mass),
          angularVelocity := b0.angularVelocity + crossProduct (r2Of s1 s2 ci) n * jN * b0.inertia }
      let t := tangentOf s1 s2 ci
      let jT := jTOf s1 s2 ci
      let a2 := if a1.static = true then a1 else
        let aT := { a1 with
          velocity := subtractVec2 a1.velocity (scaleVec2 (scaleVec2 t jT) a1.mass),
          angularVelocity := a1.angularVelocity - crossProduct (r1Of s1 s2 ci) t * jT * a1.inertia }
        let aD := { aT with
          velocity := newVec2 (aT.velocity.x * world.damp) (aT.velocity.y * world.damp),
          angularVelocity := aT.angularVelocity * world.angularDamp }
        if aD.pinned = true then { aD with velocity := newVec2 0 0 } else aD
      let b2 := if b1.static = true then b1 else
        let bT := { b1 with
          velocity := addVec2 b1.velocity (scaleVec2 (scaleVec2 t jT) b1.mass),
          angularVelocity := b1.angularVelocity + crossProduct (r2Of s1 s2 ci) t * jT * b1.inertia }
        let bD := { bT with
          velocity := newVec2 (bT.velocity.x * world.damp) (bT.velocity.y * world.damp),
          angularVelocity := bT.angularVelocity * world.angularDamp }
        if bD.pinned = true then { bD with velocity := newVec2 0 0 } else bD
      (a2, b2, true)

/-- Write a body back into the dynamic collection at index `i`. -/
def setDyn (w : World) (i : Nat) (b : Body) : World :=
  { w with dynamicBodies := w.dynamicBodies.set i b }

/-- Write a body back into the enabled store at index `j` (dynamic bodies
first, then static bodies), mirroring mutation of `all[j]`. -/
def setEnabled (w : World) (j : Nat) (b : Body) : World :=
  if j < w.dynamicBodies.length then setDyn w j b
  else { w with staticBodies := w.staticBodies.set (j - w.dynamicBodies.length) b }

/-- The state threaded through the collision-resolution loop of `worldStep`:
the world, the accumulated collision records, and the per-pass flag
`collision` of the source. -/
@[ext] structure StepState where
  world : World
  collisions : List Collision
  anyCollision : Bool

/-- Handling of one `(i, j)` pair inside the resolution loop of `worldStep`:
broad phase, narrow phase, the permeability pass-through branch, normal
re-orientation, and resolution. -/
def handlePair (st : StepState) (i j : Nat) : StepState :=
  if i = j then st else
  match st.world.dynamicBodies.get? i, (enabledBodies st.world).get? j with
  | some bodyI, some bodyJ =>
      if boundTest bodyI bodyJ then
        match testCollision st.world bodyI bodyJ with
        | some collisionInfo =>
            if 0 < bodyJ.permeability then
              let bodyI2 := { bodyI with
                velocity := newVec2 (bodyI.velocity.x * (1 - bodyJ.permeability))
                                    (bodyI.velocity.y * (1 - bodyJ.permeability)),
                angularVelocity := bodyI.angularVelocity * (1 - bodyJ.permeability) }
              { st with world := setDyn st.world i bodyI2 }
            else
              let ci :=
                if dotProduct collisionInfo.normal (subtractVec2 bodyJ.center bodyI.center) < 0 then
                  { depth := collisionInfo.depth,
                    normal := scaleVec2 collisionInfo.normal (-1),
                    start := collisionInfo.endPoint,
                    endPoint := collisionInfo.start }
                else collisionInfo
              let res := resolveCollision st.world bodyI bodyJ ci
              let w2 := setEnabled (setDyn st.world i res.1) j res.2.1
              if res.2.2 = true then
                { world := w2,
                  collisions := st.collisions ++
                    [{ bodyAId := bodyI.id, bodyBId := bodyJ.id, depth := ci.depth }],
                  anyCollision := true }
              else { st with world := w2 }
        | none => st
      else st
  | _, _ => st

/-- One pass of the resolution loop: `i` runs over the dynamic indices from
high to low, `j` over the enabled indices from high to low down to `i`
(the pair `i = j` is skipped inside `handlePair`). -/
def collisionPass (st : StepState) : StepState :=
  ((List.range st.world.dynamicBodies.length).reverse).foldl
    (fun s i =>
      (((List.range (enabledBodies s.world).length).filter (fun j => i ≤ j)).reverse).foldl
        (fun s2 j => handlePair s2 i j) s)
    st

/-- One pass with the per-pass `collision` flag freshly reset to `false`. -/
def passOnce (st : StepState) : StepState :=
  collisionPass { st with anyCollision := false }

/-- The bounded resolution loop (`for (let k = 9; k--;)` with
`if (!collision) break`): runs at most `fuel` passes and stops after the
first pass that resolves nothing. -/
def resolutionLoop : Nat → StepState → StepState
  | 0, st => st
  | Nat.succ fuel, st =>
      let st2 := passOnce st
      if st2.anyCollision = true then resolutionLoop fuel st2 else st2

/-- Integration of one dynamic body at the start of `worldStep`. -/
def integrateBody (fps : ℝ) (body : Body) : Body :=
  let body := { body with velocity := addVec2 body.velocity (scaleVec2 body.acceleration (1 / fps)) }
  let body := moveBodyInternal body (scaleVec2 body.velocity (1 / fps)) false
  let body := { body with angularVelocity := body.angularVelocity + body.angularAcceleration * 1 / fps }
  rotateBody body (body.angularVelocity * 1 / fps)

/-- The integration phase of `worldStep`: every dynamic body is integrated. -/
def integratePhase (fps : ℝ) (w : World) : World :=
  { w with dynamicBodies := w.dynamicBodies.map (integrateBody fps) }

/-- Application of one joint to the dynamic body currently being processed:
find the other endpoint among the enabled bodies (skip when missing), then
nudge position and velocity toward the target distance. -/
def applyJointToBody (fps : ℝ) (w : World) (body : Body) (joint : Joint) : Body :=
  let otherId := if joint.bodyA = body.id then joint.bodyB else joint.bodyA
  match (enabledBodies w).find? (fun b => b.id == otherId) with
  | none => body
  | some other =>
      let vec := subtractVec2 other.center body.center
      let distance := lengthVec2 vec
      let diff := distance - joint.distance
      if diff ≠ 0 then
        let vec2 :=
          if 0 < diff then
            scaleVec2 vec ((1 / distance) * diff * (1 - joint.elasticity) * (if other.mass = 0 then 1 else 0.5))
          else
            scaleVec2 vec ((1 / distance) * diff * joint.rigidity * (if other.mass = 0 then 1 else 0.5))
        let body := moveBodyInternal body vec2 false
        { body with velocity := addVec2 body.velocity (scaleVec2 vec2 fps) }
      else body

/-- The joint phase for the dynamic body at index `i`. -/
def jointStepForBody (fps : ℝ) (w : World) (i : Nat) : World :=
  match w.dynamicBodies.get? i with
  | none => w
  | some body0 =>
      let js := w.joints.filter (fun j => j.bodyA == body0.id || j.bodyB == body0.id)
      setDyn w i (js.foldl (applyJointToBody fps w) body0)

/-- The joint phase of `worldStep`, over the dynamic bodies in order. -/
def jointPhase (fps : ℝ) (w : World) : World :=
  (List.range w.dynamicBodies.length).foldl (jointStepForBody fps) w

/-- The resting-time bookkeeping applied to one body at the end of
`worldStep`.  Bodies with positive inverse mass first accumulate `1 / fps`,
then each drift test (x beyond 1, y beyond 1, angle at or beyond 0.1) snaps
its own component of the average and zeroes the resting time; bodies with
zero inverse mass snap both averages to the current pose. -/
def stabilityUpdate (fps : ℝ) (body : Body) : Body :=
  if 0 < body.mass then
    let body := { body with restingTime := body.restingTime + 1 / fps }
    let body :=
      if 1 < |body.center.x - body.averageCenter.x| then
        { body with averageCenter := { body.averageCenter with x := body.center.x }, restingTime := 0 }
      else body
    let body :=
      if 1 < |body.center.y - body.averageCenter.y| then
        { body with averageCenter := { body.averageCenter with y := body.center.y }, restingTime := 0 }
      else body
    if 0.1 ≤ |body.angle - body.averageAngle| then
      { body with averageAngle := body.angle, restingTime := 0 }
    else body
  else
    { body with averageCenter := body.center, averageAngle := body.angle }

/-- The resting-time phase of `worldStep`, over all bodies (dynamic, static
and disabled). -/
def stabilityPhase (fps : ℝ) (w : World) : World :=
  { w with
    dynamicBodies := w.dynamicBodies.map (stabilityUpdate fps),
    staticBodies := w.staticBodies.map (stabilityUpdate fps),
    disabledBodies := w.disabledBodies.map (stabilityUpdate fps) }

/-- One step of the world (`worldStep`): integration, joints, at most nine
resolution passes, resting-time bookkeeping.  Returns the stepped world and
the collision records accumulated over all passes. -/
def worldStep (fps : ℝ) (world : World) : World × List Collision :=
  let w1 := integratePhase fps world
  let w2 := jointPhase fps w1
  let st := resolutionLoop 9 { world := w2, collisions := [], anyCollision := false }
  (stabilityPhase fps st.world, st.collisions)

/-! ## Basic simp lemmas about the vector primitives -/

@[simp] lemma newVec2_x (a b : ℝ) : (newVec2 a b).x = a := rfl

@[simp] lemma newVec2_y (a b : ℝ) : (newVec2 a b).y = b := rfl

lemma sqrt_eval (a b : ℝ) (hb : 0 ≤ b) (h : b * b = a) : Real.sqrt a = b := by
  rw [← h]; exact Real.sqrt_mul_self hb

lemma lengthVec2_eval (v : Vector2) (b : ℝ) (hb : 0 ≤ b)
    (h : b * b = v.x * v.x + v.y * v.y) : lengthVec2 v = b := by
  unfold lengthVec2 dotProduct
  exact sqrt_eval _ b hb h

lemma lengthVec2_subtract (a b : Vector2) :
    lengthVec2 (subtractVec2 a b) =
      Real.sqrt ((a.x - b.x) * (a.x - b.x) + (a.y - b.y) * (a.y - b.y)) := by
  unfold lengthVec2 dotProduct subtractVec2 addVec2 scaleVec2 newVec2
  norm_num
  ring_nf

lemma neg_subtract (v w : Vector2) : scaleVec2 (subtractVec2 v w) (-1) = subtractVec2 w v := by
  ext <;> simp [subtractVec2, addVec2, scaleVec2, newVec2]

/-! ## Test fixtures: a base body and a base world, specialised per claim -/

/-- A body record with every field zeroed; concrete test bodies below are
record updates of this. -/
def baseBody : Body :=
  { id := 0, type := ShapeType.CIRCLE, center := newVec2 0 0,
    averageCenter := newVec2 0 0, friction := 0, restitution := 0, mass := 1,
    velocity := newVec2 0 0, acceleration := newVec2 0 0, angle := 0,
    averageAngle := 0, angularVelocity := 0, angularAcceleration := 0,
    bounds := 0, boundingBox := newVec2 0 0, width := 0, height := 0,
    inertia := 0, faceNormals := [], vertices := [], pinned := false,
    restingTime := 0, static := false, permeability := 0 }

/-- An empty world with the default tuning of `createWorld`. -/
def baseWorld : World :=
  { dynamicBodies := [], staticBodies := [], disabledBodies := [],
    gravity := newVec2 0 100, angularDamp := 0.98, damp := 0.98,
    nextId := 1, joints := [] }

/-! ## C7: normalize -/

/-- C7: for every vector of nonzero length, `normalize v = scaleVec2 v
(1 / lengthVec2 v)`; for a zero-length vector the divisor is replaced by 1,
so the vector is returned unchanged. -/
theorem normalize_spec (v : Vector2) :
    (lengthVec2 v ≠ 0 → normalize v = scaleVec2 v (1 / lengthVec2 v)) ∧
    (lengthVec2 v = 0 → normalize v = v) := by
  constructor
  · intro h
    unfold normalize
    rw [if_neg h]
  · intro h
    unfold normalize
    rw [if_pos h]
    ext <;> simp [scaleVec2, newVec2]

/-- Witness for C7 at the concrete vector `(3, 4)` of length 5. -/
theorem normalize_spec_witness :
    normalize (newVec2 3 4) = scaleVec2 (newVec2 3 4) (1 / lengthVec2 (newVec2 3 4)) := by
  have h5 : lengthVec2 (newVec2 3 4) = 5 := by
    apply lengthVec2_eval _ 5 (by norm_num)
    norm_num
  exact (normalize_spec (newVec2 3 4)).1 (by rw [h5]; norm_num)

/-! ## C9: createJoint target distance -/

/-- C9: `createJoint` appends exactly one joint whose target distance is the
euclidean distance between the two bodies' centers at creation time plus
`0.5`; the signature accepts only rigidity and elasticity, so the caller
cannot pass a target distance. -/
theorem createJoint_distance (w : World) (a b : Body) (r e : ℝ) :
    (createJoint w a b r e).joints.getLast?.map Joint.distance =
      some (Real.sqrt ((a.center.x - b.center.x) * (a.center.x - b.center.x) +
        (a.center.y - b.center.y) * (a.center.y - b.center.y)) + 0.5) ∧
    (createJoint w a b r e).joints.length = w.joints.length + 1 := by
  unfold createJoint
  refine ⟨?_, by simp⟩
  rw [List.getLast?_concat]
  simp [lengthVec2_subtract a.center b.center]

/-! ## C10: removeBody on a disabled body -/

/-- C10: for a body in the disabled collection of a world whose enabled
collections contain no body of the same id, `removeBody` leaves the world
unchanged (it searches only the collection selected by the `static` flag),
and the body still appears in `allBodies` afterwards. -/
theorem removeBody_disabled (w : World) (b : Body)
    (hmem : b ∈ w.disabledBodies)
    (hdyn : ∀ d ∈ w.dynamicBodies, d.id ≠ b.id)
    (hstat : ∀ d ∈ w.staticBodies, d.id ≠ b.id) :
    removeBody w b = w ∧ b ∈ allBodies (removeBody w b) := by
  have hgone : removeBody w b = w := by
    unfold removeBody
    by_cases hs : b.static = true
    · rw [if_pos hs]
      have : w.staticBodies.findIdx? (fun x => x.id == b.id) = none := by
        rw [List.findIdx?_eq_none_iff]
        intro d hd
        simpa using hstat d hd
      rw [this]
    · rw [if_neg hs]
      have : w.dynamicBodies.findIdx? (fun x => x.id == b.id) = none := by
        rw [List.findIdx?_eq_none_iff]
        intro d hd
        simpa using hdyn d hd
      rw [this]
  refine ⟨hgone, ?_⟩
  rw [hgone]
  unfold allBodies
  simp [hmem]

/-- The disabled body used in the C10 witness. -/
def disabledBody : Body := { baseBody with id := 7, static := true, mass := 0 }

/-- The world of the C10 witness: one disabled body, nothing enabled. -/
def disabledWorld : World := { baseWorld with disabledBodies := [disabledBody] }

/-- Witness for C10: removing the disabled body is a no-op and the body is
still present. -/
theorem removeBody_disabled_witness :
    removeBody disabledWorld disabledBody = disabledWorld ∧
    disabledBody ∈ allBodies (removeBody disabledWorld disabledBody) :=
  removeBody_disabled disabledWorld disabledBody
    (by simp [disabledWorld])
    (by intro d hd; simp [disabledWorld, baseWorld] at hd)
    (by intro d hd; simp [disabledWorld, baseWorld] at hd)

/-! ## C2: circle–circle narrow phase -/

/-- First body of the C2 counterexample: a static circle of radius 10 at the
origin. -/
def ssCircle1 : Body := { baseBody with id := 1, mass := 0, static := true, bounds := 10 }

/-- Second body of the C2 counterexample: a static circle of radius 10 at
`(3, 4)`, overlapping the first. -/
def ssCircle2 : Body :=
  { baseBody with id := 2, mass := 0, static := true, bounds := 10, center := newVec2 3 4 }

/-- C2 counterexample: two overlapping circles at distance 5 with radii sum
20 are reported as NOT colliding when both inverse masses are zero, because
`testCollision` rejects static–static pairs before the circle test.  This
refutes the claimed equivalence for every pair of circle bodies. -/
theorem testCollision_circle_circle_counterexample :
    testCollision baseWorld ssCircle1 ssCircle2 = none ∧
    lengthVec2 (subtractVec2 ssCircle2.center ssCircle1.center) ≤
      ssCircle1.bounds + ssCircle2.bounds := by
  constructor
  · unfold testCollision
    rw [if_pos ⟨rfl, rfl⟩]
  · have h5 : lengthVec2 (subtractVec2 ssCircle2.center ssCircle1.center) = 5 := by
      apply lengthVec2_eval _ 5 (by norm_num)
      simp [ssCircle2, ssCircle1, baseBody, subtractVec2, addVec2, scaleVec2, newVec2]
      norm_num
    rw [h5]
    show (5 : ℝ) ≤ ssCircle1.bounds + ssCircle2.bounds
    norm_num [ssCircle1, ssCircle2, baseBody]

/-- C2 (amended): for circle bodies that are not a static–static pair and
have nonnegative radii, `testCollision` reports a collision iff the center
distance is at most the radii sum (the source's `dist <= sqrt(rSum*rSum)`
reduces to this), and in that case the depth is `r1 + r2 - dist` and the
contact start point is `c2.center` plus `r2` times the unit vector from c2
toward c1. -/
theorem testCollision_circle_circle (w : World) (c1 c2 : Body)
    (h1 : c1.type = ShapeType.CIRCLE) (h2 : c2.type = ShapeType.CIRCLE)
    (hm : ¬(c1.mass = 0 ∧ c2.mass = 0))
    (hb1 : 0 ≤ c1.bounds) (hb2 : 0 ≤ c2.bounds) :
    ((testCollision w c1 c2).isSome = true ↔
      lengthVec2 (subtractVec2 c2.center c1.center) ≤ c1.bounds + c2.bounds) ∧
    (testCollision w c1 c2).map CollisionDetails.depth =
      (if lengthVec2 (subtractVec2 c2.center c1.center) ≤ c1.bounds + c2.bounds then
        some (c1.bounds + c2.bounds - lengthVec2 (subtractVec2 c2.center c1.center)) else none) ∧
    (testCollision w c1 c2).map CollisionDetails.start =
      (if lengthVec2 (subtractVec2 c2.center c1.center) ≤ c1.bounds + c2.bounds then
        some (addVec2 c2.center (scaleVec2 (normalize (subtractVec2 c1.center c2.center)) c2.bounds))
      else none) := by
  have hsq : Real.sqrt ((c1.bounds + c2.bounds) * (c1.bounds + c2.bounds)) =
      c1.bounds + c2.bounds := Real.sqrt_mul_self (add_nonneg hb1 hb2)
  unfold testCollision
  rw [if_neg hm, if_pos ⟨h1, h2⟩]
  simp only [hsq]
  by_cases hd : lengthVec2 (subtractVec2 c2.center c1.center) ≤ c1.bounds + c2.bounds
  · rw [if_pos hd, if_pos hd, if_pos hd]
    refine ⟨by simp [hd], by simp [setCollisionInfo], ?_⟩
    simp [setCollisionInfo, neg_subtract]
  · rw [if_neg hd, if_neg hd, if_neg hd]
    simp [hd]

/-- First body of the C2 witness: a movable circle of radius 10 at the
origin. -/
def wCircle1 : Body := { baseBody with id := 1, bounds := 10 }

/-- Second body of the C2 witness: a static circle of radius 10 at
`(15, 0)`. -/
def wCircle2 : Body :=
  { baseBody with id := 2, mass := 0, static := true, bounds := 10, center := newVec2 15 0 }

/-- Witness for C2 at a dynamic–static circle pair at distance 15 with radii
sum 20. -/
theorem testCollision_circle_circle_witness :
    (testCollision baseWorld wCircle1 wCircle2).isSome = true ↔
      lengthVec2 (subtractVec2 wCircle2.center wCircle1.center) ≤
        wCircle1.bounds + wCircle2.bounds :=
  (testCollision_circle_circle baseWorld wCircle1 wCircle2 rfl rfl
    (by norm_num [wCircle1, wCircle2, baseBody])
    (by norm_num [wCircle1, baseBody])
    (by norm_num [wCircle2, baseBody])).1

/-! ## C6: the resolution loop runs at most nine passes with early exit -/

lemma resolutionLoop_char (fuel : Nat) (st : StepState) (hf : 1 ≤ fuel) :
    ∃ n, 1 ≤ n ∧ n ≤ fuel ∧ resolutionLoop fuel st = passOnce^[n] st ∧
      (∀ m, 1 ≤ m → m < n → (passOnce^[m] st).anyCollision = true) ∧
      (n = fuel ∨ (passOnce^[n] st).anyCollision = false) := by
  induction fuel generalizing st with
  | zero => omega
  | succ k ih =>
    by_cases hc : (passOnce st).anyCollision = true
    · by_cases hk : 1 ≤ k
      · obtain ⟨n, hn1, hnk, heq, hint, hfin⟩ := ih (passOnce st) hk
        refine ⟨n + 1, by omega, by omega, ?_, ?_, ?_⟩
        · show resolutionLoop (k + 1) st = passOnce^[n + 1] st
          simp only [resolutionLoop]
          rw [if_pos hc, heq, Function.iterate_succ_apply]
        · intro m hm1 hmn
          rcases Nat.exists_eq_add_of_le hm1 with ⟨m0, rfl⟩
          cases m0 with
          | zero => simpa using hc
          | succ m1 =>
            have hstep : passOnce^[1 + (m1 + 1)] st = passOnce^[m1 + 1] (passOnce st) := by
              rw [Nat.add_comm, Function.iterate_add_apply, Function.iterate_one]
            rw [hstep]
            exact hint (m1 + 1) (by omega) (by omega)
        · rw [Function.iterate_succ_apply]
          rcases hfin with h | h
          · exact Or.inl (by omega)
          · exact Or.inr h
      · have hk0 : k = 0 := by omega
        subst hk0
        refine ⟨1, le_refl 1, le_refl 1, ?_, ?_, Or.inl rfl⟩
        · simp only [resolutionLoop]
          rw [if_pos hc]
          simp [resolutionLoop, Function.iterate_one]
        · intro m hm1 hmn
          omega
    · refine ⟨1, le_refl 1, by omega, ?_, ?_, ?_⟩
      · simp only [resolutionLoop]
        rw [if_neg hc]
        simp [Function.iterate_one]
      · intro m hm1 hmn
        omega
      · refine Or.inr ?_
        rw [Function.iterate_one]
        simpa using hc

/-- C6: `worldStep` runs its resolution loop through `resolutionLoop 9`, and
that loop executes exactly `n` passes for some `1 ≤ n ≤ 9`: every pass
before the last resolved at least one collision (set the `collision` flag),
and the loop ran fewer than nine passes only because its final pass resolved
none. -/
theorem worldStep_resolution_bounded :
    (∀ (fps : ℝ) (w : World), worldStep fps w =
      (stabilityPhase fps
        (resolutionLoop 9
          { world := jointPhase fps (integratePhase fps w), collisions := [],
            anyCollision := false }).world,
       (resolutionLoop 9
          { world := jointPhase fps (integratePhase fps w), collisions := [],
            anyCollision := false }).collisions)) ∧
    ∀ st : StepState, ∃ n, 1 ≤ n ∧ n ≤ 9 ∧ resolutionLoop 9 st = passOnce^[n] st ∧
      (∀ m, 1 ≤ m → m < n → (passOnce^[m] st).anyCollision = true) ∧
      (n = 9 ∨ (passOnce^[n] st).anyCollision = false) :=
  ⟨fun _ _ => rfl, fun st => resolutionLoop_char 9 st (by norm_num)⟩

/-- Witness for C6 at a concrete world and loop state. -/
theorem worldStep_resolution_bounded_witness :
    worldStep 1 baseWorld =
      (stabilityPhase 1
        (resolutionLoop 9
          { world := jointPhase 1 (integratePhase 1 baseWorld), collisions := [],
            anyCollision := false }).world,
       (resolutionLoop 9
          { world := jointPhase 1 (integratePhase 1 baseWorld), collisions := [],
            anyCollision := false }).collisions) ∧
    ∃ n, 1 ≤ n ∧ n ≤ 9 ∧
      resolutionLoop 9 { world := baseWorld, collisions := [], anyCollision := false } =
        passOnce^[n] { world := baseWorld, collisions := [], anyCollision := false } ∧
      (∀ m, 1 ≤ m → m < n →
        (passOnce^[m] { world := baseWorld, collisions := [], anyCollision := false }).anyCollision =
          true) ∧
      (n = 9 ∨
        (passOnce^[n] { world := baseWorld, collisions := [], anyCollision := false }).anyCollision =
          false) :=
  ⟨worldStep_resolution_bounded.1 1 baseWorld,
   worldStep_resolution_bounded.2 { world := baseWorld, collisions := [], anyCollision := false }⟩

/-! ## Helper lemmas about `moveBodyInternal` and `resolveCollision` -/

lemma moveBodyInternal_center (b : Body) (v : Vector2) :
    (moveBodyInternal b v false).center =
      (if b.pinned = true ∨ b.mass = 0 then b.center else addVec2 b.center v) := by
  unfold moveBodyInternal
  by_cases h : b.pinned = true ∨ b.mass = 0
  · rw [if_pos ⟨rfl, h⟩, if_pos h]
  · rw [if_neg (by simp [h]), if_neg h]
    cases htype : b.type <;> simp [htype, calcBoundingBox]

lemma moveBodyInternal_mass (b : Body) (v : Vector2) (f : Bool) :
    (moveBodyInternal b v f).mass = b.mass := by
  unfold moveBodyInternal
  split
  · rfl
  · cases htype : b.type <;> simp [htype, calcBoundingBox]

lemma moveBodyInternal_angle (b : Body) (v : Vector2) (f : Bool) :
    (moveBodyInternal b v f).angle = b.angle := by
  unfold moveBodyInternal
  split
  · rfl
  · cases htype : b.type <;> simp [htype, calcBoundingBox]

lemma moveBodyInternal_zero_mass (b : Body) (v : Vector2) (h : b.mass = 0) :
    moveBodyInternal b v false = b := by
  unfold moveBodyInternal
  rw [if_pos ⟨rfl, Or.inr h⟩]

/-- Under the two non-degeneracy guards, `resolveCollision` puts each body at
the center produced by the (non-forced) position-correction move, and no
later stage of the resolver touches centers. -/
lemma resolveCollision_centers (w : World) (s1 s2 : Body) (ci : CollisionDetails)
    (hm : ¬(s1.mass = 0 ∧ s2.mass = 0))
    (hc : ¬((correctionVec s1 s2 ci).x = 0 ∧ (correctionVec s1 s2 ci).y = 0)) :
    (resolveCollision w s1 s2 ci).1.center = (movedA s1 s2 ci).center ∧
    (resolveCollision w s1 s2 ci).2.1.center = (movedB s1 s2 ci).center := by
  simp only [resolveCollision]
  rw [if_neg hm, if_neg hc]
  split_ifs <;> simp

/-! ## C5: position correction is applied through the non-forced move -/

/-- C5 (amended): the resolver computes `correction = normal *
(depth/(invMassA+invMassB) * 0.8)` and moves A by `-correction*invMassA`
and B by `+correction*invMassB`, but through the NON-forced `_moveBody`:
a pinned body (and a zero-inverse-mass body, via the same early return) is
left exactly in place by the position correction. -/
theorem resolveCollision_position_correction (w : World) (s1 s2 : Body)
    (ci : CollisionDetails)
    (hm : ¬(s1.mass = 0 ∧ s2.mass = 0))
    (hc : ¬((correctionVec s1 s2 ci).x = 0 ∧ (correctionVec s1 s2 ci).y = 0)) :
    correctionVec s1 s2 ci = scaleVec2 ci.normal (ci.depth / (s1.mass + s2.mass) * 0.8) ∧
    (resolveCollision w s1 s2 ci).1.center =
      (if s1.pinned = true ∨ s1.mass = 0 then s1.center
       else addVec2 s1.center (scaleVec2 (correctionVec s1 s2 ci) (-s1.mass))) ∧
    (resolveCollision w s1 s2 ci).2.1.center =
      (if s2.pinned = true ∨ s2.mass = 0 then s2.center
       else addVec2 s2.center (scaleVec2 (correctionVec s1 s2 ci) s2.mass)) := by
  obtain ⟨ha, hb⟩ := resolveCollision_centers w s1 s2 ci hm hc
  refine ⟨rfl, ?_, ?_⟩
  · rw [ha]
    exact moveBodyInternal_center s1 (scaleVec2 (correctionVec s1 s2 ci) (-s1.mass))
  · rw [hb]
    exact moveBodyInternal_center s2 (scaleVec2 (correctionVec s1 s2 ci) s2.mass)

/-- Pinned circle used by the C5 counterexample and witness: inverse mass 1,
pinned, centered at the origin. -/
def pinBody : Body := { baseBody with id := 1, pinned := true, bounds := 10 }

/-- Free circle used by the C5 counterexample and witness. -/
def freeBody : Body := { baseBody with id := 2, bounds := 10, center := newVec2 15 0 }

/-- Concrete collision details for the C5 counterexample and witness:
depth 5 along the x axis. -/
def pinCi : CollisionDetails :=
  { depth := 5, normal := newVec2 1 0, start := newVec2 10 0, endPoint := newVec2 15 0 }

/-- C5 counterexample: with a pinned body of inverse mass 1 and a nonzero
correction vector `(2, 0)`, the resolver leaves the pinned body's center
unchanged instead of translating it by `-correction * invMass = (-2, 0)`:
the correction move is not forced. -/
theorem resolveCollision_pinned_counterexample :
    pinBody.pinned = true ∧ pinBody.mass = 1 ∧
    correctionVec pinBody freeBody pinCi = newVec2 2 0 ∧
    (resolveCollision baseWorld pinBody freeBody pinCi).1.center = pinBody.center ∧
    (resolveCollision baseWorld pinBody freeBody pinCi).1.center ≠
      addVec2 pinBody.center (scaleVec2 (correctionVec pinBody freeBody pinCi) (-pinBody.mass)) := by
  have hcv : correctionVec pinBody freeBody pinCi = newVec2 2 0 := by
    unfold correctionVec
    ext <;> norm_num [pinCi, pinBody, freeBody, baseBody, scaleVec2]
  have hcenter : (resolveCollision baseWorld pinBody freeBody pinCi).1.center = pinBody.center := by
    have h := (resolveCollision_centers baseWorld pinBody freeBody pinCi
      (by norm_num [pinBody, freeBody, baseBody])
      (by rw [hcv]; norm_num)).1
    rw [h]
    unfold movedA
    rw [moveBodyInternal_center]
    simp [pinBody, baseBody]
  refine ⟨rfl, rfl, hcv, hcenter, ?_⟩
  rw [hcenter, hcv]
  show pinBody.center ≠ _
  simp [pinBody, baseBody, addVec2, scaleVec2, Vector2.ext_iff]

/-- Witness for the amended C5 at the pinned configuration. -/
theorem resolveCollision_position_correction_witness :
    (resolveCollision baseWorld pinBody freeBody pinCi).1.center =
      (if pinBody.pinned = true ∨ pinBody.mass = 0 then pinBody.center
       else addVec2 pinBody.center (scaleVec2 (correctionVec pinBody freeBody pinCi) (-pinBody.mass))) ∧
    (resolveCollision baseWorld pinBody freeBody pinCi).2.1.center =
      (if freeBody.pinned = true ∨ freeBody.mass = 0 then freeBody.center
       else addVec2 freeBody.center (scaleVec2 (correctionVec pinBody freeBody pinCi) freeBody.mass)) :=
  ⟨(resolveCollision_position_correction baseWorld pinBody freeBody pinCi
      (by norm_num [pinBody, freeBody, baseBody])
      (by norm_num [correctionVec, pinCi, pinBody, freeBody, baseBody, scaleVec2])).2.1,
   (resolveCollision_position_correction baseWorld pinBody freeBody pinCi
      (by norm_num [pinBody, freeBody, baseBody])
      (by norm_num [correctionVec, pinCi, pinBody, freeBody, baseBody, scaleVec2])).2.2⟩

/-! ## C4: the Coulomb cap on the friction impulse -/

lemma dot_scale_right (v w : Vector2) (c : ℝ) :
    dotProduct v (scaleVec2 w c) = dotProduct v w * c := by
  simp [dotProduct, scaleVec2, newVec2]
  ring

lemma dot_v_sub_proj_nonneg (v n : Vector2) (hn : dotProduct n n = 1) :
    0 ≤ dotProduct v (subtractVec2 v (scaleVec2 n (dotProduct v n))) := by
  have hn2 : n.x * n.x + n.y * n.y = 1 := hn
  have key : dotProduct v (subtractVec2 v (scaleVec2 n (dotProduct v n))) =
      (v.x * n.y - v.y * n.x) ^ 2 + (v.x ^ 2 + v.y ^ 2) * (1 - (n.x * n.x + n.y * n.y)) := by
    simp [dotProduct, subtractVec2, addVec2, scaleVec2, newVec2]
    ring
  rw [key, hn2]
  nlinarith [sq_nonneg (v.x * n.y - v.y * n.x)]

lemma dot_normalize_tangent_nonpos (v n : Vector2) (hn : dotProduct n n = 1) :
    dotProduct v (scaleVec2 (normalize (subtractVec2 v (scaleVec2 n (dotProduct v n)))) (-1)) ≤ 0 := by
  have h1 := dot_v_sub_proj_nonneg v n hn
  set t0 := subtractVec2 v (scaleVec2 n (dotProduct v n)) with ht0
  unfold normalize
  rw [dot_scale_right, dot_scale_right]
  have hd : 0 ≤ 1 / (if lengthVec2 t0 = 0 then 1 else lengthVec2 t0) := by
    split_ifs with h
    · norm_num
    · apply one_div_nonneg.mpr
      unfold lengthVec2
      exact Real.sqrt_nonneg _
  have hprod := mul_nonneg h1 hd
  nlinarith [hprod]

/-- C4 (amended): the applied friction scalar is clamped only from above
(`jT ≤ jN` always); the magnitude form `|jT| ≤ |jN|` holds whenever the
inverse masses and inertias are nonnegative, the combined restitution is at
least `-1`, the combined friction is nonnegative, the normal component of
relative velocity is nonpositive (the only case that reaches the friction
stage), and the contact normal is a unit vector.  With a negative combined
friction the magnitude cap can fail (see the counterexample). -/
theorem resolveCollision_friction_cap (s1 s2 : Body) (ci : CollisionDetails) :
    jTOf s1 s2 ci ≤ jNOf s1 s2 ci ∧
    (0 ≤ s1.mass → 0 ≤ s2.mass → 0 ≤ s1.inertia → 0 ≤ s2.inertia →
      -1 ≤ min s1.restitution s2.restitution → 0 ≤ min s1.friction s2.friction →
      rVnOf s1 s2 ci ≤ 0 → dotProduct ci.normal ci.normal = 1 →
      |jTOf s1 s2 ci| ≤ |jNOf s1 s2 ci|) := by
  have hcap : jTOf s1 s2 ci ≤ jNOf s1 s2 ci := by
    unfold jTOf
    split_ifs with h
    · exact le_refl _
    · exact le_of_not_lt h
  refine ⟨hcap, ?_⟩
  intro hm1 hm2 hi1 hi2 hr hf hv hn
  have hjN : 0 ≤ jNOf s1 s2 ci := by
    unfold jNOf
    apply div_nonneg
    · have heq : -(1 + min s1.restitution s2.restitution) * rVnOf s1 s2 ci =
        (1 + min s1.restitution s2.restitution) * (-rVnOf s1 s2 ci) := by ring
      rw [heq]
      exact mul_nonneg (by linarith) (by linarith)
    · have t1 : 0 ≤ crossProduct (r1Of s1 s2 ci) ci.normal *
          crossProduct (r1Of s1 s2 ci) ci.normal * s1.inertia :=
        mul_nonneg (mul_self_nonneg _) hi1
      have t2 : 0 ≤ crossProduct (r2Of s1 s2 ci) ci.normal *
          crossProduct (r2Of s1 s2 ci) ci.normal * s2.inertia :=
        mul_nonneg (mul_self_nonneg _) hi2
      linarith
  have hdt : dotProduct (relVelOf s1 s2 ci) (tangentOf s1 s2 ci) ≤ 0 := by
    unfold tangentOf
    exact dot_normalize_tangent_nonpos (relVelOf s1 s2 ci) ci.normal hn
  have hjT : 0 ≤ jTrawOf s1 s2 ci := by
    unfold jTrawOf
    apply div_nonneg
    · have heq : -(1 + min s1.restitution s2.restitution) *
          dotProduct (relVelOf s1 s2 ci) (tangentOf s1 s2 ci) * min s1.friction s2.friction =
        (1 + min s1.restitution s2.restitution) *
          (-dotProduct (relVelOf s1 s2 ci) (tangentOf s1 s2 ci)) * min s1.friction s2.friction := by
        ring
      rw [heq]
      exact mul_nonneg (mul_nonneg (by linarith) (by linarith)) hf
    · have t1 : 0 ≤ crossProduct (r1Of s1 s2 ci) (tangentOf s1 s2 ci) *
          crossProduct (r1Of s1 s2 ci) (tangentOf s1 s2 ci) * s1.inertia :=
        mul_nonneg (mul_self_nonneg _) hi1
      have t2 : 0 ≤ crossProduct (r2Of s1 s2 ci) (tangentOf s1 s2 ci) *
          crossProduct (r2Of s1 s2 ci) (tangentOf s1 s2 ci) * s2.inertia :=
        mul_nonneg (mul_self_nonneg _) hi2
      linarith
  have h0T : 0 ≤ jTOf s1 s2 ci := by
    unfold jTOf
    split_ifs
    · exact hjN
    · exact hjT
  rw [abs_of_nonneg h0T, abs_of_nonneg hjN]
  exact hcap

/-- First body of the C4 witness: inverse mass 1, everything else zero. -/
def capA : Body := { baseBody with id := 1, bounds := 10 }

/-- Second body of the C4 witness. -/
def capB : Body := { baseBody with id := 2, bounds := 10, center := newVec2 15 0 }

/-- Contact details of the C4 witness: depth 5 along the unit x normal. -/
def capCi : CollisionDetails :=
  { depth := 5, normal := newVec2 1 0, start := newVec2 10 0, endPoint := newVec2 15 0 }

/-- Witness for the amended C4 at a resting contact with zero friction. -/
theorem resolveCollision_friction_cap_witness :
    |jTOf capA capB capCi| ≤ |jNOf capA capB capCi| :=
  (resolveCollision_friction_cap capA capB capCi).2
    (by norm_num [capA, baseBody]) (by norm_num [capB, baseBody])
    (by norm_num [capA, baseBody]) (by norm_num [capB, baseBody])
    (by norm_num [capA, capB, baseBody]) (by norm_num [capA, capB, baseBody])
    (by norm_num [rVnOf, relVelOf, dotProduct, addVec2, subtractVec2, scaleVec2, newVec2,
      capA, capB, capCi, baseBody])
    (by norm_num [dotProduct, capCi, newVec2])

/-- First body of the C4 counterexample: friction `-100`, moving with
velocity `(1, 1)` toward the contact. -/
def negA : Body := { baseBody with id := 1, bounds := 10, velocity := newVec2 1 1, friction := -100 }

/-- Second body of the C4 counterexample: at rest at `(10, 0)`. -/
def negB : Body := { baseBody with id := 2, bounds := 10, center := newVec2 10 0 }

/-- Contact details of the C4 counterexample: depth `2.5` along the unit x
normal. -/
def negCi : CollisionDetails :=
  { depth := 2.5, normal := newVec2 1 0, start := newVec2 10 0, endPoint := newVec2 12.5 0 }

lemma negA_corr : correctionVec negA negB negCi = newVec2 1 0 := by
  unfold correctionVec
  ext <;> norm_num [negA, negB, negCi, baseBody, scaleVec2]

lemma negA_r1 : r1Of negA negB negCi = newVec2 12.25 0 := by
  have hcA : (movedA negA negB negCi).center = newVec2 (-1) 0 := by
    unfold movedA
    rw [moveBodyInternal_center, negA_corr]
    norm_num [negA, baseBody]
    ext <;> norm_num [addVec2, scaleVec2, negA, baseBody]
  unfold r1Of contactP
  rw [hcA]
  ext <;> norm_num [negA, negB, negCi, baseBody, addVec2, subtractVec2, scaleVec2]

lemma negA_r2 : r2Of negA negB negCi = newVec2 0.25 0 := by
  have hcB : (movedB negA negB negCi).center = newVec2 11 0 := by
    unfold movedB
    rw [moveBodyInternal_center, negA_corr]
    norm_num [negB, baseBody]
    ext <;> norm_num [addVec2, scaleVec2, negB, baseBody]
  unfold r2Of contactP
  rw [hcB]
  ext <;> norm_num [negA, negB, negCi, baseBody, addVec2, subtractVec2, scaleVec2]

lemma negA_rel : relVelOf negA negB negCi = newVec2 (-1) (-1) := by
  unfold relVelOf
  rw [negA_r1, negA_r2]
  ext <;> norm_num [negA, negB, baseBody, addVec2, subtractVec2, scaleVec2]

lemma negA_rVn : rVnOf negA negB negCi = -1 := by
  unfold rVnOf
  rw [negA_rel]
  norm_num [dotProduct, negCi]

lemma negA_jN : jNOf negA negB negCi = 1 / 2 := by
  unfold jNOf
  rw [negA_rVn, negA_r1, negA_r2]
  norm_num [crossProduct, negA, negB, negCi, baseBody]

lemma negA_tangent : tangentOf negA negB negCi = newVec2 0 1 := by
  unfold tangentOf
  rw [negA_rel]
  have ht0 : subtractVec2 (newVec2 (-1) (-1))
      (scaleVec2 negCi.normal (dotProduct (newVec2 (-1) (-1)) negCi.normal)) = newVec2 0 (-1) := by
    ext <;> norm_num [negCi, subtractVec2, addVec2, scaleVec2, dotProduct]
  rw [ht0]
  have hlen : lengthVec2 (newVec2 0 (-1)) = 1 := lengthVec2_eval _ 1 (by norm_num) (by norm_num)
  unfold normalize
  rw [hlen]
  ext <;> norm_num [scaleVec2]

lemma negA_jT : jTOf negA negB negCi = -50 := by
  have hraw : jTrawOf negA negB negCi = -50 := by
    unfold jTrawOf
    rw [negA_rel, negA_tangent, negA_r1, negA_r2]
    norm_num [dotProduct, crossProduct, negA, negB, baseBody]
  unfold jTOf
  rw [hraw, negA_jN]
  norm_num

/-- C4 counterexample: a contact that reaches the friction stage (normal
relative velocity `-1`, nonzero correction, movable bodies) in which the
friction scalar actually applied is `-50` while the normal impulse is
`1/2`: the one-sided clamp leaves `|jT| = 50 > 1/2 = |jN|`, refuting the
claimed magnitude cap for all inputs. -/
theorem resolveCollision_friction_cap_counterexample :
    rVnOf negA negB negCi ≤ 0 ∧
    ¬(negA.mass = 0 ∧ negB.mass = 0) ∧
    ¬((correctionVec negA negB negCi).x = 0 ∧ (correctionVec negA negB negCi).y = 0) ∧
    jNOf negA negB negCi = 1 / 2 ∧
    jTOf negA negB negCi = -50 ∧
    ¬(|jTOf negA negB negCi| ≤ |jNOf negA negB negCi|) := by
  refine ⟨by rw [negA_rVn]; norm_num, by norm_num [negA, negB, baseBody], ?_,
    negA_jN, negA_jT, ?_⟩
  · rw [negA_corr]
    norm_num
  · rw [negA_jT, negA_jN]
    rw [abs_of_nonpos (by norm_num : (-50 : ℝ) ≤ 0), abs_of_nonneg (by norm_num : (0:ℝ) ≤ 1 / 2)]
    norm_num

/-! ## C8: resting-time bookkeeping -/

/-- C8 (amended): for a movable body, the end-of-step bookkeeping tests each
component separately: an x drift beyond 1 snaps only `averageCenter.x`, a y
drift beyond 1 snaps only `averageCenter.y`, an angle drift of at least 0.1
snaps only `averageAngle`; any of the three resets `restingTime` to 0, and
when none fires `1/fps` is accumulated. -/
theorem stabilityUpdate_spec (fps : ℝ) (b : Body) (h : 0 < b.mass) :
    stabilityUpdate fps b = { b with
      averageCenter := newVec2
        (if 1 < |b.center.x - b.averageCenter.x| then b.center.x else b.averageCenter.x)
        (if 1 < |b.center.y - b.averageCenter.y| then b.center.y else b.averageCenter.y),
      averageAngle := if 0.1 ≤ |b.angle - b.averageAngle| then b.angle else b.averageAngle,
      restingTime :=
        if 1 < |b.center.x - b.averageCenter.x| ∨ 1 < |b.center.y - b.averageCenter.y| ∨
            0.1 ≤ |b.angle - b.averageAngle| then 0
        else b.restingTime + 1 / fps } := by
  simp only [stabilityUpdate]
  rw [if_pos h]
  by_cases h1 : 1 < |b.center.x - b.averageCenter.x| <;>
    by_cases h2 : 1 < |b.center.y - b.averageCenter.y| <;>
      by_cases h3 : (0.1 : ℝ) ≤ |b.angle - b.averageAngle| <;>
        simp [h1, h2, h3, newVec2]

/-- Body of the C8 witness: inverse mass 1, x drifted by 5, angle drifted by
0.05. -/
def driftBody : Body :=
  { baseBody with
    center := newVec2 5 0, averageCenter := newVec2 0 0,
    averageAngle := 0.05, restingTime := 3 }

/-- Witness for the amended C8 at `fps = 1`: the x drift (5 > 1) snaps
`averageCenter.x` and resets the resting time, while `averageAngle` keeps
its drifted value 0.05. -/
theorem stabilityUpdate_spec_witness :
    stabilityUpdate 1 driftBody = { driftBody with averageCenter := newVec2 5 0, restingTime := 0 } := by
  rw [stabilityUpdate_spec 1 driftBody (by norm_num [driftBody, baseBody])]
  have habs : |(1 : ℝ) / 20| = 1 / 20 := abs_of_nonneg (by norm_num)
  ext <;> norm_num [driftBody, baseBody, newVec2, habs]

/-- Body of the C8 counterexample: center drifted from the average by 2 on
the x axis, angle drifted by `1/20` (below the 0.1 threshold). -/
def c8Body : Body :=
  { baseBody with
    id := 1, bounds := 10, boundingBox := newVec2 10 10,
    averageCenter := newVec2 2 0, averageAngle := 1 / 20 }

/-- World of the C8 counterexample: the single body above, no gravity on it
(its acceleration is zero), no joints. -/
def c8World : World := { baseWorld with dynamicBodies := [c8Body] }

lemma c8_integrate : integrateBody 1 c8Body = c8Body := by
  ext <;>
    norm_num [integrateBody, moveBodyInternal, rotateBody, c8Body, baseBody, addVec2, scaleVec2,
      newVec2]

lemma c8_integratePhase : integratePhase 1 c8World = c8World := by
  unfold integratePhase
  simp [c8World, c8_integrate]

lemma c8_jointPhase : jointPhase 1 c8World = c8World := by
  unfold jointPhase jointStepForBody
  simp [c8World, baseWorld, setDyn, c8Body, baseBody, List.range_succ]

lemma c8_resolution :
    resolutionLoop 9 { world := c8World, collisions := [], anyCollision := false } =
      { world := c8World, collisions := [], anyCollision := false } := by
  have hpair : ∀ st : StepState, handlePair st 0 0 = st := by
    intro st
    unfold handlePair
    simp
  have hpass : collisionPass { world := c8World, collisions := [], anyCollision := false } =
      { world := c8World, collisions := [], anyCollision := false } := by
    unfold collisionPass
    simp [c8World, baseWorld, enabledBodies, List.range_succ, hpair]
  simp only [resolutionLoop, passOnce]
  simp [hpass]

/-- C8 counterexample: after a `worldStep` in which the x drift (2 > 1)
fired, the body's `restingTime` was reset to 0 but `averageAngle` kept its
old value `1/20` instead of being snapped to the current angle 0: the claim
that the whole average (center and angle) is snapped on any drift fails. -/
theorem worldStep_snap_counterexample :
    ((worldStep 1 c8World).1.dynamicBodies.get? 0).map
        (fun b => (b.angle, b.averageAngle, b.restingTime)) = some (0, 1 / 20, 0) ∧
    (1 / 20 : ℝ) ≠ 0 := by
  constructor
  · have hws : worldStep 1 c8World = (stabilityPhase 1 c8World, []) := by
      simp only [worldStep]
      rw [c8_integratePhase, c8_jointPhase, c8_resolution]
    rw [hws]
    unfold stabilityPhase
    simp [c8World, baseWorld]
    have habs : |(1 : ℝ) / 20| = 1 / 20 := abs_of_nonneg (by norm_num)
    norm_num [stabilityUpdate, c8Body, baseBody, habs]
  · norm_num

/-! ## C3: the permeability pass-through branch -/

/-- Concrete narrow-phase evaluation shared by the C3 theorems: circles of
radius 10 at `(0,0)` and `(12,16)` touch exactly (distance 20), producing
depth 0, normal `(3/5, 4/5)` and contact point `(6, 8)`. -/
lemma circleTestEval (w : World) (c1 c2 : Body)
    (h1 : c1.type = ShapeType.CIRCLE) (h2 : c2.type = ShapeType.CIRCLE)
    (hm : ¬(c1.mass = 0 ∧ c2.mass = 0))
    (hc1 : c1.center = newVec2 0 0) (hc2 : c2.center = newVec2 12 16)
    (hb1 : c1.bounds = 10) (hb2 : c2.bounds = 10) :
    testCollision w c1 c2 =
      some { depth := 0, normal := newVec2 (3 / 5) (4 / 5), start := newVec2 6 8,
             endPoint := newVec2 6 8 } := by
  have hv : subtractVec2 (newVec2 12 16) (newVec2 0 0) = newVec2 12 16 := by
    ext <;> norm_num [subtractVec2, addVec2, scaleVec2]
  have hd : lengthVec2 (newVec2 12 16) = 20 := lengthVec2_eval _ 20 (by norm_num) (by norm_num)
  have hs : Real.sqrt (((10 : ℝ) + 10) * (10 + 10)) = 20 := sqrt_eval _ 20 (by norm_num) (by norm_num)
  have hn : normalize (newVec2 12 16) = newVec2 (3 / 5) (4 / 5) := by
    unfold normalize
    rw [hd]
    rw [if_neg (by norm_num : ¬(20 : ℝ) = 0)]
    ext <;> norm_num [scaleVec2]
  have hneg : scaleVec2 (newVec2 (12 : ℝ) 16) (-1) = newVec2 (-12) (-16) := by
    ext <;> norm_num [scaleVec2]
  have hd2 : lengthVec2 (newVec2 (-12 : ℝ) (-16)) = 20 :=
    lengthVec2_eval _ 20 (by norm_num) (by norm_num)
  have hn2 : normalize (scaleVec2 (newVec2 (12 : ℝ) 16) (-1)) = newVec2 (-(3 / 5)) (-(4 / 5)) := by
    rw [hneg]
    unfold normalize
    rw [hd2]
    rw [if_neg (by norm_num : ¬(20 : ℝ) = 0)]
    ext <;> norm_num [scaleVec2]
  unfold testCollision
  rw [if_neg hm, if_pos ⟨h1, h2⟩]
  simp only [hc1, hc2, hb1, hb2, hv, hd, hs]
  rw [if_pos (le_refl (20 : ℝ))]
  rw [hn, hn2]
  simp only [setCollisionInfo]
  congr 1
  ext <;> norm_num [addVec2, scaleVec2]

/-- The dynamic, fully permeable circle of the C3 counterexample. -/
def permI : Body :=
  { baseBody with id := 1, bounds := 10, boundingBox := newVec2 10 10, permeability := 1 }

/-- The dynamic, non-permeable circle of the C3 counterexample, touching
`permI` and moving with velocity `(1, 1)`. -/
def permJ : Body :=
  { baseBody with
    id := 2, bounds := 10, boundingBox := newVec2 10 10,
    center := newVec2 12 16, velocity := newVec2 1 1 }

/-- World of the C3 counterexample. -/
def permWorld : World := { baseWorld with dynamicBodies := [permI, permJ] }

/-- Loop state of the C3 counterexample. -/
def permState : StepState := { world := permWorld, collisions := [], anyCollision := false }

/-- The contact produced by `testCollision` for the C3 counterexample pair. -/
def permCi : CollisionDetails :=
  { depth := 0, normal := newVec2 (3 / 5) (4 / 5), start := newVec2 6 8, endPoint := newVec2 6 8 }

lemma perm_boundTest : boundTest permI permJ := by
  constructor <;> norm_num [permI, permJ, baseBody]

lemma perm_testCollision : testCollision permWorld permI permJ = some permCi :=
  circleTestEval permWorld permI permJ rfl rfl (by norm_num [permI, permJ, baseBody]) rfl rfl rfl rfl

lemma perm_resolve : resolveCollision permWorld permI permJ permCi = (permI, permJ, false) := by
  unfold resolveCollision
  rw [if_neg (by norm_num [permI, permJ, baseBody] : ¬(permI.mass = 0 ∧ permJ.mass = 0))]
  rw [if_pos]
  constructor <;> norm_num [correctionVec, scaleVec2, permI, permJ, baseBody, permCi]

lemma perm_handlePair :
    (handlePair permState 0 1).world.dynamicBodies.get? 1 = some permJ := by
  unfold handlePair
  rw [if_neg (by norm_num : ¬(0 : Nat) = 1)]
  have hI : permState.world.dynamicBodies.get? 0 = some permI := rfl
  have hJ : (enabledBodies permState.world).get? 1 = some permJ := rfl
  rw [hI, hJ]
  dsimp only
  rw [if_pos perm_boundTest]
  have ht : testCollision permState.world permI permJ = some permCi := perm_testCollision
  rw [ht]
  dsimp only
  rw [if_neg (by norm_num [permJ, baseBody] : ¬(0 : ℝ) < permJ.permeability)]
  rw [if_neg (by norm_num [permCi, permI, permJ, baseBody, dotProduct, subtractVec2, addVec2,
    scaleVec2] : ¬dotProduct permCi.normal (subtractVec2 permJ.center permI.center) < 0)]
  have hres : resolveCollision permState.world permI permJ permCi = (permI, permJ, false) :=
    perm_resolve
  rw [hres]
  simp [setEnabled, setDyn, permState, permWorld, baseWorld]

/-- C3 counterexample: the source consults only the permeability of the
SECOND body of the pair.  In a detected contact whose first (dynamic) body
has permeability 1, the other body's velocity is not scaled by
`1 - permeability = 0`: it keeps its value `(1, 1)`, refuting the claim
that the pass-through treatment fires when either of the two bodies is
permeable. -/
theorem handlePair_permeability_counterexample :
    ¬ (∀ (st : StepState) (i j : Nat) (bodyI bodyJ : Body) (ci : CollisionDetails),
        st.world.dynamicBodies.get? i = some bodyI →
        (enabledBodies st.world).get? j = some bodyJ →
        i ≠ j → boundTest bodyI bodyJ →
        testCollision st.world bodyI bodyJ = some ci →
        0 < bodyI.permeability →
        ((handlePair st i j).world.dynamicBodies.get? j).map Body.velocity =
          some (scaleVec2 bodyJ.velocity (1 - bodyI.permeability))) := by
  intro hclaim
  have h := hclaim permState 0 1 permI permJ permCi rfl rfl (by norm_num) perm_boundTest
    perm_testCollision (by norm_num [permI, baseBody])
  rw [perm_handlePair] at h
  simp [scaleVec2, permI, permJ, baseBody, Vector2.ext_iff] at h

/-- The body update performed by the pass-through branch of `worldStep`:
the first (dynamic) body's velocity and angular velocity are scaled by
`1 - permeability` of the second body. -/
def passThroughUpdate (bodyI bodyJ : Body) : Body :=
  { bodyI with
    velocity := newVec2 (bodyI.velocity.x * (1 - bodyJ.permeability))
                        (bodyI.velocity.y * (1 - bodyJ.permeability)),
    angularVelocity := bodyI.angularVelocity * (1 - bodyJ.permeability) }

/-- C3 (amended): the pass-through branch fires exactly on the permeability
of the SECOND body of the pair (`bodyJ`, drawn from the enabled list).  When
it fires, the whole effect of the pair is to scale `bodyI`'s velocity and
angular velocity by `1 - bodyJ.permeability`: `bodyJ` is untouched, no
impulse and no position correction is applied, no collision is recorded and
the pass flag is left unchanged. -/
theorem handlePair_permeability (st : StepState) (i j : Nat) (bodyI bodyJ : Body)
    (ci : CollisionDetails)
    (hI : st.world.dynamicBodies.get? i = some bodyI)
    (hJ : (enabledBodies st.world).get? j = some bodyJ)
    (hij : i ≠ j) (hb : boundTest bodyI bodyJ)
    (ht : testCollision st.world bodyI bodyJ = some ci)
    (hp : 0 < bodyJ.permeability) :
    handlePair st i j =
      { st with world := setDyn st.world i (passThroughUpdate bodyI bodyJ) } := by
  unfold handlePair
  rw [if_neg hij, hI, hJ]
  dsimp only
  rw [if_pos hb, ht]
  dsimp only
  rw [if_pos hp]
  rfl

/-- First body of the C3 witness: dynamic with nonzero velocity and spin. -/
def permI2 : Body :=
  { baseBody with
    id := 1, bounds := 10, boundingBox := newVec2 10 10,
    velocity := newVec2 2 3, angularVelocity := 5 }

/-- Second body of the C3 witness: fully permeable, touching the first. -/
def permJ2 : Body :=
  { baseBody with
    id := 2, bounds := 10, boundingBox := newVec2 10 10,
    center := newVec2 12 16, permeability := 1 }

/-- World of the C3 witness. -/
def permWorld2 : World := { baseWorld with dynamicBodies := [permI2, permJ2] }

/-- Loop state of the C3 witness. -/
def permState2 : StepState := { world := permWorld2, collisions := [], anyCollision := false }

/-- Witness for the amended C3: the pair above is detected and the second
body is permeable, so the whole pair effect is the pass-through scaling of
the first body. -/
theorem handlePair_permeability_witness :
    handlePair permState2 0 1 =
      { permState2 with world := setDyn permState2.world 0 (passThroughUpdate permI2 permJ2) } :=
  handlePair_permeability permState2 0 1 permI2 permJ2
    { depth := 0, normal := newVec2 (3 / 5) (4 / 5), start := newVec2 6 8, endPoint := newVec2 6 8 }
    rfl rfl (by norm_num)
    (by constructor <;> norm_num [boundTest, permI2, permJ2, baseBody])
    (circleTestEval permWorld2 permI2 permJ2 rfl rfl
      (by norm_num [permI2, permJ2, baseBody]) rfl rfl rfl rfl)
    (by norm_num [permJ2, baseBody])

/-! ## C1: static bodies never change center or angle in `worldStep` -/

/-- The per-body relation maintained for entries of the static collection:
the inverse mass is untouched and, for a zero-inverse-mass body, so are the
center and the angle. -/
def StaticSafe (b b2 : Body) : Prop :=
  b2.mass = b.mass ∧ (b.mass = 0 → b2.center = b.center ∧ b2.angle = b.angle)

lemma staticSafe_refl (b : Body) : StaticSafe b b := ⟨rfl, fun _ => ⟨rfl, rfl⟩⟩

lemma staticSafe_trans {a b c : Body} (h1 : StaticSafe a b) (h2 : StaticSafe b c) :
    StaticSafe a c := by
  refine ⟨h1.1 ▸ h2.1, fun hm => ?_⟩
  have hb := h1.2 hm
  have hbm : b.mass = 0 := h1.1.trans hm
  have hc := h2.2 hbm
  exact ⟨hc.1.trans hb.1, hc.2.trans hb.2⟩

/-- The invariant carried through the resolution loop: the static collection
has its original length and every entry is `StaticSafe` relative to the
original entry at the same position. -/
def StatOK (orig : List Body) (w : World) : Prop :=
  orig.length = w.staticBodies.length ∧
  ∀ k b b2, orig.get? k = some b → w.staticBodies.get? k = some b2 → StaticSafe b b2

lemma resolveCollision_staticSafe (w : World) (s1 s2 : Body) (ci : CollisionDetails) :
    StaticSafe s2 (resolveCollision w s1 s2 ci).2.1 := by
  have hmB : (movedB s1 s2 ci).mass = s2.mass := moveBodyInternal_mass _ _ _
  have haB : (movedB s1 s2 ci).angle = s2.angle := moveBodyInternal_angle _ _ _
  have hcB : s2.mass = 0 → (movedB s1 s2 ci).center = s2.center := by
    intro h
    unfold movedB
    rw [moveBodyInternal_zero_mass _ _ h]
  simp only [resolveCollision]
  split_ifs <;>
    first
      | exact staticSafe_refl s2
      | (refine ⟨by simp [hmB], fun hm => ⟨by simp [hcB hm], by simp [haB]⟩⟩)

lemma setDyn_staticBodies (w : World) (i : Nat) (b : Body) :
    (setDyn w i b).staticBodies = w.staticBodies := rfl

lemma setDyn_dynLength (w : World) (i : Nat) (b : Body) :
    (setDyn w i b).dynamicBodies.length = w.dynamicBodies.length := by
  simp [setDyn]

/-- Any single pair handled inside the resolution loop keeps the static
collection `StaticSafe`: the only write it can make to that collection is
the resolver's second output at the position of `bodyJ`. -/
lemma setEnabled_statOK (orig : List Body) (w : World) (j : Nat) (bodyJ bNew : Body)
    (h : StatOK orig w)
    (hJ : w.dynamicBodies.length ≤ j →
      w.staticBodies.get? (j - w.dynamicBodies.length) = some bodyJ)
    (hsafe : StaticSafe bodyJ bNew) : StatOK orig (setEnabled w j bNew) := by
  unfold setEnabled
  split_ifs with hj
  · exact h
  · push_neg at hj
    have hJ2 := hJ hj
    constructor
    · simp [h.1]
    · intro k b b2 hkb hkb2
      dsimp only at hkb2
      by_cases hk : j - w.dynamicBodies.length = k
      · subst hk
        rw [List.get?_set_eq] at hkb2
        rw [hJ2] at hkb2
        simp at hkb2
        subst hkb2
        exact staticSafe_trans (h.2 _ _ _ hkb hJ2) hsafe
      · rw [List.get?_set_ne _ _ hk] at hkb2
        exact h.2 _ _ _ hkb hkb2

/-- Any single pair handled inside the resolution loop keeps the static
collection `StaticSafe`: the only write it can make to that collection is
the resolver's second output at the position of `bodyJ`. -/
lemma handlePair_statOK (orig : List Body) (st : StepState) (i j : Nat)
    (h : StatOK orig st.world) : StatOK orig (handlePair st i j).world := by
  unfold handlePair
  by_cases hij : i = j
  · rw [if_pos hij]
    exact h
  rw [if_neg hij]
  rcases hI : st.world.dynamicBodies.get? i with _ | bodyI <;>
    rcases hJ : (enabledBodies st.world).get? j with _ | bodyJ <;>
      dsimp only
  · exact h
  · exact h
  · exact h
  by_cases hb : boundTest bodyI bodyJ
  case neg => rw [if_neg hb]; exact h
  rw [if_pos hb]
  rcases hci : testCollision st.world bodyI bodyJ with _ | ci <;> dsimp only
  · exact h
  by_cases hp : 0 < bodyJ.permeability
  · rw [if_pos hp]
    exact h
  rw [if_neg hp]
  have hmain : ∀ ci2 : CollisionDetails, StatOK orig
      (setEnabled (setDyn st.world i (resolveCollision st.world bodyI bodyJ ci2).1) j
        (resolveCollision st.world bodyI bodyJ ci2).2.1) := by
    intro ci2
    refine setEnabled_statOK orig _ j bodyJ _ ?_ ?_ (resolveCollision_staticSafe _ _ _ ci2)
    · exact h
    · intro hj
      rw [setDyn_dynLength] at hj
      have hJ3 := hJ
      unfold enabledBodies at hJ3
      rw [List.get?_append_right hj] at hJ3
      simpa [setDyn, setDyn_dynLength] using hJ3
  split_ifs <;> exact hmain _

lemma foldlInvariant {σ α : Type} (P : σ → Prop) (f : σ → α → σ)
    (hf : ∀ s a, P s → P (f s a)) : ∀ (l : List α) (s : σ), P s → P (l.foldl f s) := by
  intro l
  induction l with
  | nil => intro s hs; exact hs
  | cons a rest ih =>
      intro s hs
      exact ih (f s a) (hf s a hs)

lemma collisionPass_statOK (orig : List Body) (st : StepState)
    (h : StatOK orig st.world) : StatOK orig (collisionPass st).world := by
  unfold collisionPass
  refine foldlInvariant (fun s => StatOK orig s.world) _ ?_ _ st h
  intro s i hs
  exact foldlInvariant (fun s2 => StatOK orig s2.world) _
    (fun s2 j hs2 => handlePair_statOK orig s2 i j hs2) _ s hs

lemma resolutionLoop_statOK (orig : List Body) (fuel : Nat) (st : StepState)
    (h : StatOK orig st.world) : StatOK orig (resolutionLoop fuel st).world := by
  induction fuel generalizing st with
  | zero => exact h
  | succ k ih =>
      simp only [resolutionLoop, passOnce]
      have hp : StatOK orig (collisionPass { st with anyCollision := false }).world :=
        collisionPass_statOK orig _ h
      split_ifs
      · exact ih _ hp
      · exact hp

lemma stabilityUpdate_pose (fps : ℝ) (b : Body) :
    (stabilityUpdate fps b).center = b.center ∧ (stabilityUpdate fps b).angle = b.angle ∧
    (stabilityUpdate fps b).mass = b.mass := by
  unfold stabilityUpdate
  by_cases h0 : 0 < b.mass
  · rw [if_pos h0]
    by_cases h1 : 1 < |b.center.x - b.averageCenter.x| <;>
      by_cases h2 : 1 < |b.center.y - b.averageCenter.y| <;>
        by_cases h3 : (0.1 : ℝ) ≤ |b.angle - b.averageAngle| <;>
          simp [h1, h2, h3]
  · rw [if_neg h0]
    simp

lemma stabilityPhase_statOK (orig : List Body) (fps : ℝ) (w : World)
    (h : StatOK orig w) : StatOK orig (stabilityPhase fps w) := by
  constructor
  · simp [stabilityPhase, h.1]
  · intro k b b2 hkb hkb2
    simp only [stabilityPhase, List.get?_map] at hkb2
    rcases hmap : w.staticBodies.get? k with _ | bOld
    · rw [hmap] at hkb2; simp at hkb2
    · rw [hmap] at hkb2
      simp at hkb2
      subst hkb2
      have hsafe : StaticSafe bOld (stabilityUpdate fps bOld) := by
        obtain ⟨hc, ha, hm⟩ := stabilityUpdate_pose fps bOld
        exact ⟨hm, fun _ => ⟨hc, ha⟩⟩
      exact staticSafe_trans (h.2 _ _ _ hkb hmap) hsafe

lemma jointStepForBody_staticBodies (fps : ℝ) (w : World) (i : Nat) :
    (jointStepForBody fps w i).staticBodies = w.staticBodies := by
  unfold jointStepForBody
  split
  · rfl
  · rfl

lemma jointPhase_staticBodies (fps : ℝ) (w : World) :
    (jointPhase fps w).staticBodies = w.staticBodies := by
  unfold jointPhase
  refine foldlInvariant (fun w2 => w2.staticBodies = w.staticBodies) _ ?_ _ w rfl
  intro w2 i hw2
  rw [jointStepForBody_staticBodies, hw2]

/-- C1: a body stored in the static collection with zero inverse mass has
exactly the same center and angle after any `worldStep`, whatever the
gravity, the joints and the other bodies of the world. -/
theorem worldStep_static_invariance (fps : ℝ) (w : World) (i : Nat) (b : Body)
    (hb : w.staticBodies.get? i = some b) (hm : b.mass = 0) :
    ((worldStep fps w).1.staticBodies.get? i).map (fun c => (c.center, c.angle)) =
      some (b.center, b.angle) := by
  have h0 : StatOK w.staticBodies (jointPhase fps (integratePhase fps w)) := by
    constructor
    · rw [jointPhase_staticBodies]
      rfl
    · intro k bk bk2 hk hk2
      rw [jointPhase_staticBodies] at hk2
      have : bk2 = bk := by
        change (integratePhase fps w).staticBodies.get? k = some bk2 at hk2
        rw [show (integratePhase fps w).staticBodies = w.staticBodies from rfl] at hk2
        rw [hk] at hk2
        exact (Option.some.inj hk2).symm
      rw [this]
      exact staticSafe_refl bk
  have h1 : StatOK w.staticBodies
      (resolutionLoop 9
        { world := jointPhase fps (integratePhase fps w), collisions := [],
          anyCollision := false }).world :=
    resolutionLoop_statOK _ 9 _ h0
  have h2 : StatOK w.staticBodies (worldStep fps w).1 := by
    simp only [worldStep]
    exact stabilityPhase_statOK _ fps _ h1
  have hlt : i < w.staticBodies.length := by
    rcases List.get?_eq_some.mp hb with ⟨hn, _⟩
    exact hn
  have hlt2 : i < (worldStep fps w).1.staticBodies.length := h2.1 ▸ hlt
  rcases List.get?_eq_some.mpr ⟨hlt2, rfl⟩ with hsome
  have hsafe := h2.2 i b _ hb hsome
  rw [hsome]
  simp only [Option.map_some']
  obtain ⟨hc, ha⟩ := hsafe.2 hm
  rw [hc, ha]

/-- The static body of the C1 witness. -/
def statBody : Body :=
  { baseBody with
    id := 1, mass := 0, static := true, bounds := 10,
    boundingBox := newVec2 10 10, center := newVec2 5 5, angle := 0.3 }

/-- The world of the C1 witness: a single static body. -/
def statWorld : World := { baseWorld with staticBodies := [statBody] }

/-- Witness for C1: one step of the world leaves the static body's pose
untouched. -/
theorem worldStep_static_invariance_witness :
    ((worldStep 1 statWorld).1.staticBodies.get? 0).map (fun c => (c.center, c.angle)) =
      some (statBody.center, statBody.angle) :=
  worldStep_static_invariance 1 statWorld 0 statBody rfl rfl

end physics
